import Mathlib

/-!
Verification of the core behaviour of `reword.py` (`TextFormatterBot`):
the task registry, the retrying remote-formatting call `format_text`,
the history persistence `save_to_history`, and the statistics view
`display_statistics`.

Modelling choices:
* Python strings become `String`; `len` becomes `String.length`
  (both count Unicode code points); `str.strip()` becomes `strip`
  below, which drops leading and trailing whitespace characters.
* The `json` library collaborator is modelled at the level of a JSON
  value tree (`Json` below): `json.dump`/`json.load` faithfully persist
  and reload a value, while an unreadable or syntactically corrupt file
  is the `FileState.corrupt` state (where `json.load` raises).
* The OpenAI client is an injected behaviour `Nat → RemoteOutcome`,
  giving the outcome of the attempt with that index: a successful reply
  (the first completion's text), an `openai.APIError`, or any other
  exception.  `self.client = None` is `clientReady = false`.
* Python floats `0.7` and the percentage/average arithmetic are modelled
  over `ℚ`.
* A failed file write (`writeFails = true`) follows the source's
  `open(self.history_file, 'w')`, which truncates the file before
  `json.dump` runs: a failure during the dump leaves a proper prefix of
  the serialized array on disk.  No proper prefix of that serialization
  is valid JSON (the brackets are unbalanced, and the empty file is not
  JSON either), so the post-failure file is the `corrupt` state, on
  which a later `json.load` raises — not the prior contents.
* The distinct raise sites of `format_text` are the spec's error names:
  `ValueError("Input text cannot be empty")` is `EmptyInputError`,
  `ValueError("OpenAI client not initialized")` is `ClientNotReadyError`,
  the `KeyError` from `self.tasks[task]` is `UnknownTaskError`, and
  `Exception("Failed to format text after multiple attempts")` raised
  from the final `except openai.APIError as e` handler (so chained onto
  the last API error) is `RemoteExhaustedError`.
-/

namespace Reword

/-- The `TaskConfig` dataclass (reword.py lines 15-21). -/
structure TaskConfig where
  name : String
  description : String
  instruction : String
  max_tokens : Nat := 500
  temperature : ℚ := 7/10
deriving DecidableEq

/-- Model name `self.model_name` (line 25). -/
def model_name : String := "gpt-4-1106-preview"

/-- Python `str.strip()` with no argument: remove leading and trailing
whitespace. -/
def strip (s : String) : String :=
  ⟨((s.data.dropWhile Char.isWhitespace).reverse.dropWhile
      Char.isWhitespace).reverse⟩

/-- The `formal` entry of `self.tasks` (lines 27-32); the two Python
string literals are concatenated. -/
def formalTask : TaskConfig :=
  { name := "formal"
    description := "Professional and polished format"
    instruction := "Please rewrite the following text in a professional, clear, and well-structured format, fixing any typos or grammatical errors." }

/-- The `bullet` entry of `self.tasks` (lines 33-38). -/
def bulletTask : TaskConfig :=
  { name := "bullet"
    description := "Convert to organized bullet points"
    instruction := "Please convert the following text into organized bullet points, fixing any typos or grammatical errors." }

/-- The `summarize` entry of `self.tasks` (lines 39-45). -/
def summarizeTask : TaskConfig :=
  { name := "summarize"
    description := "Create a clear summary"
    instruction := "Please provide a clear, organized summary of the following text, fixing any typos or grammatical errors."
    max_tokens := 300 }

/-- Registry `self.tasks` as an insertion-ordered association list (Python dict
preserves insertion order). -/
def tasks : List (String × TaskConfig) :=
  [("formal", formalTask), ("bullet", bulletTask), ("summarize", summarizeTask)]

/-- Lookup `self.tasks[task]`: `some` the config, or `none` where Python raises
`KeyError`. -/
def lookupTask (taskId : String) : Option TaskConfig :=
  (tasks.find? (fun p => p.1 == taskId)).map (fun p => p.2)

/-! ## JSON values and the history file -/

/-- A JSON value, as produced/consumed by the `json` collaborator.
Only the shapes the program can meet matter; numbers in the history are
the non-negative integers `len(...)`. -/
inductive Json where
  | str (s : String)
  | num (n : Nat)
  | arr (xs : List Json)
  | obj (fields : List (String × Json))

/-- One element of the persisted history array (lines 78-83). -/
structure HistoryEntry where
  timestamp : String
  task : String
  input_length : Nat
  output_length : Nat
deriving DecidableEq

/-- The dict literal appended by `save_to_history` (lines 78-83). -/
def encodeEntry (e : HistoryEntry) : Json :=
  .obj [("timestamp", .str e.timestamp), ("task", .str e.task),
        ("input_length", .num e.input_length), ("output_length", .num e.output_length)]

/-- Python dict key lookup `d[key]` on the decoded JSON object:
first (and in well-formed objects only) binding wins. -/
def jlookup : List (String × Json) → String → Option Json
  | [], _ => none
  | (k, v) :: rest, key => if k == key then some v else jlookup rest key

/-- Reading one history element back as the four typed fields
(`entry['timestamp']` etc.); `none` where Python would raise
(`KeyError` / wrong shape). -/
def decodeEntry (j : Json) : Option HistoryEntry :=
  match j with
  | .obj fields =>
    match jlookup fields "timestamp", jlookup fields "task",
          jlookup fields "input_length", jlookup fields "output_length" with
    | some (.str ts), some (.str t), some (.num i), some (.num o) =>
        some ⟨ts, t, i, o⟩
    | _, _, _, _ => none
  | _ => none

/-- The persisted JSON array for a history sequence. -/
def encodeHistory (l : List HistoryEntry) : Json :=
  .arr (l.map encodeEntry)

/-- Element-wise decoding of a list of JSON values; `none` as soon as
one element fails. -/
def decodeEntries : List Json → Option (List HistoryEntry)
  | [] => some []
  | j :: rest =>
    match decodeEntry j, decodeEntries rest with
    | some e, some es => some (e :: es)
    | _, _ => none

/-- Reloading a full persisted history value. -/
def decodeHistory : Json → Option (List HistoryEntry)
  | .arr xs => decodeEntries xs
  | _ => none

/-- State of `formatting_history.json`:
missing (`self.history_file.exists()` false), unreadable/corrupt
(`json.load` raises), or storing a JSON value. -/
inductive FileState where
  | missing
  | corrupt
  | stored (j : Json)

/-- Method `save_to_history` (lines 70-88).  The whole body is inside
`try ... except Exception`, so every internal failure is swallowed.
Failures raised before the write — a corrupt file (`json.load` raises)
or a stored non-array value (`history.append` raises) — leave the file
as it was, because `open(..., 'w')` is never reached.  A failure during
the write happens after `open('w')` has already truncated the file, so
it leaves a truncated/partial (unparseable) file: the `corrupt` state.
On the good path the reloaded array gets the new entry dict appended
and is rewritten in full. -/
def save_to_history (fs : FileState) (writeFails : Bool)
    (ts input_text task output_text : String) : FileState :=
  let entry := encodeEntry ⟨ts, task, input_text.length, output_text.length⟩
  match fs with
  | .corrupt => .corrupt
  | .missing => if writeFails then .corrupt else .stored (.arr [entry])
  | .stored (.arr xs) =>
      if writeFails then .corrupt else .stored (.arr (xs ++ [entry]))
  | .stored j => .stored j

/-! ## The remote call and the retry loop -/

/-- One message of the conversation (lines 178-181). -/
structure ChatMessage where
  role : String
  content : String
deriving DecidableEq

/-- The argument bundle of one `self.client.chat.completions.create`
call (lines 176-184). -/
structure ChatRequest where
  model : String
  messages : List ChatMessage
  max_tokens : Nat
  temperature : ℚ
deriving DecidableEq

/-- Outcome of the remote call on a given attempt: the first
completion's text, an `openai.APIError` (with its message), or any
other exception. -/
inductive RemoteOutcome where
  | success (text : String)
  | apiError (msg : String)
  | otherError (msg : String)
deriving DecidableEq

/-- The errors `format_text` can raise, named as in the spec. -/
inductive FormatError where
  | emptyInput
  | clientNotReady
  | unknownTask
  | remoteExhausted (lastMsg : String)
  | unexpected (msg : String)
deriving DecidableEq

/-- Result of one `format_text` call: the returned text or raised
error, the list of remote requests issued (in order), the list of
`time.sleep` durations performed (in order), and the final history
file state. -/
structure FormatResult where
  outcome : Except FormatError String
  requests : List ChatRequest
  sleeps : List Nat
  fileState : FileState

/-- Constant `max_retries = 3` (line 171). -/
def max_retries : Nat := 3

/-- The `for attempt in range(max_retries)` loop of `format_text`
(lines 174-200), entered at `attempt = 0`, `retry_delay = 1`.
On success the result is recorded via `save_to_history` and returned;
on `openai.APIError` with attempts left it sleeps `retry_delay`,
doubles the delay and continues; on the last attempt's `APIError` it
raises the exhaustion error carrying the last API error; any other
exception is re-raised at once. -/
def runAttempts (req : ChatRequest) (behavior : Nat → RemoteOutcome)
    (ts input_text task : String) (writeFails : Bool) (fs : FileState)
    (attempt retry_delay : Nat) : FormatResult :=
  match behavior attempt with
  | .success text =>
      ⟨.ok text, [req], [], save_to_history fs writeFails ts input_text task text⟩
  | .apiError msg =>
      if h : attempt < max_retries - 1 then
        let r := runAttempts req behavior ts input_text task writeFails fs
          (attempt + 1) (retry_delay * 2)
        ⟨r.outcome, req :: r.requests, retry_delay :: r.sleeps, r.fileState⟩
      else
        ⟨.error (.remoteExhausted msg), [req], [], fs⟩
  | .otherError msg =>
      ⟨.error (.unexpected msg), [req], [], fs⟩
termination_by max_retries - attempt
decreasing_by simp only [max_retries] at *; omega

/-- Method `format_text` (lines 162-200): empty-input check, client-readiness
check, task lookup, then the retry loop. -/
def format_text (clientReady : Bool) (fs : FileState)
    (behavior : Nat → RemoteOutcome) (writeFails : Bool) (ts : String)
    (input_text task : String) : FormatResult :=
  if strip input_text = "" then ⟨.error .emptyInput, [], [], fs⟩
  else if clientReady = false then ⟨.error .clientNotReady, [], [], fs⟩
  else
    match lookupTask task with
    | none => ⟨.error .unknownTask, [], [], fs⟩
    | some task_config =>
      let req : ChatRequest :=
        { model := model_name
          messages := [⟨"system", task_config.instruction⟩, ⟨"user", input_text⟩]
          max_tokens := task_config.max_tokens
          temperature := task_config.temperature }
      runAttempts req behavior ts input_text task writeFails fs 0 1

/-! ## Statistics -/

/-- Python truthiness of the loaded JSON value: `if not history`
(line 272). -/
def jsonFalsy : Json → Bool
  | .arr [] => true
  | .obj [] => true
  | .str "" => true
  | .num 0 => true
  | _ => false

/-- Update `task_counts[task] = task_counts.get(task, 0) + 1` (line 286) on an
insertion-ordered dict: update the existing key in place, or append a
new key at the end. -/
def bump : List (String × Nat) → String → List (String × Nat)
  | [], t => [(t, 1)]
  | (k, v) :: rest, t =>
      if k == t then (k, v + 1) :: rest else (k, v) :: bump rest t

/-- The three fields one loop iteration of `display_statistics` reads
from an entry: `entry['task']`, `entry['input_length']`,
`entry['output_length']` (lines 284-288); `none` where Python raises. -/
def statEntry (j : Json) : Option (String × Nat × Nat) :=
  match j with
  | .obj fields =>
    match jlookup fields "task", jlookup fields "input_length",
          jlookup fields "output_length" with
    | some (.str t), some (.num i), some (.num o) => some (t, i, o)
    | _, _, _ => none
  | _ => none

/-- Reading the stats fields of every entry, failing on the first bad
one (the loop raises there and the handler catches). -/
def statEntries : List Json → Option (List (String × Nat × Nat))
  | [] => some []
  | j :: rest =>
    match statEntry j, statEntries rest with
    | some e, some es => some (e :: es)
    | _, _ => none

/-- The aggregate numbers `display_statistics` computes and prints
(lines 279-301), with the per-task percentages of line 294. -/
structure Stats where
  total : Nat
  taskCounts : List (String × Nat)
  taskPercentages : List (String × ℚ)
  avgInput : ℚ
  avgOutput : ℚ
deriving DecidableEq

/-- The computation on a non-empty readable history (lines 279-301). -/
def computeStats (entries : List (String × Nat × Nat)) : Stats :=
  let total_uses := entries.length
  let task_counts := entries.foldl (fun c e => bump c e.1) []
  { total := total_uses
    taskCounts := task_counts
    taskPercentages :=
      task_counts.map (fun p => (p.1, (p.2 : ℚ) / (total_uses : ℚ) * 100))
    avgInput := ((entries.map (fun e => e.2.1)).sum : ℚ) / (total_uses : ℚ)
    avgOutput := ((entries.map (fun e => e.2.2)).sum : ℚ) / (total_uses : ℚ) }

/-- What `display_statistics` shows: the "No usage history available
yet." message, the "Error loading statistics" message from the
exception handler, or the computed statistics. -/
inductive StatsResult where
  | empty
  | failure
  | stats (s : Stats)
deriving DecidableEq

/-- Method `display_statistics` (lines 262-307): missing file → empty message;
unreadable file → handler; loaded falsy value → empty message;
otherwise iterate the array computing the stats, any raise inside the
`try` ending in the handler. -/
def display_statistics (fs : FileState) : StatsResult :=
  match fs with
  | .missing => .empty
  | .corrupt => .failure
  | .stored j =>
    if jsonFalsy j then .empty
    else
      match j with
      | .arr xs =>
        match statEntries xs with
        | some entries => .stats (computeStats entries)
        | none => .failure
      | _ => .failure

/-! ## Concrete remote behaviours used to witness the theorems -/

/-- A client that fails with an API error on the first two attempts and
succeeds on the third. -/
def failsTwiceThenOk : Nat → RemoteOutcome :=
  fun n => if n < 2 then .apiError "rate limited" else .success "Formatted text."

/-- A client whose every attempt fails with an API error. -/
def alwaysAPIError : Nat → RemoteOutcome :=
  fun _ => .apiError "server error"

/-- A client that succeeds immediately. -/
def alwaysOk : Nat → RemoteOutcome :=
  fun _ => .success "Formatted text."

/-! ## Unfolding lemmas for the retry loop -/

theorem runAttempts_success {req : ChatRequest} {b : Nat → RemoteOutcome}
    {ts input task : String} {wf : Bool} {fs : FileState} {a d : Nat} {t : String}
    (hb : b a = .success t) :
    runAttempts req b ts input task wf fs a d =
      ⟨.ok t, [req], [], save_to_history fs wf ts input task t⟩ := by
  rw [runAttempts, hb]

theorem runAttempts_api_step {req : ChatRequest} {b : Nat → RemoteOutcome}
    {ts input task : String} {wf : Bool} {fs : FileState} {a d : Nat} {m : String}
    (hb : b a = .apiError m) (ha : a < max_retries - 1) :
    runAttempts req b ts input task wf fs a d =
      { outcome := (runAttempts req b ts input task wf fs (a + 1) (d * 2)).outcome
        requests := req :: (runAttempts req b ts input task wf fs (a + 1) (d * 2)).requests
        sleeps := d :: (runAttempts req b ts input task wf fs (a + 1) (d * 2)).sleeps
        fileState := (runAttempts req b ts input task wf fs (a + 1) (d * 2)).fileState } := by
  rw [runAttempts, hb]
  simp [ha]

theorem runAttempts_api_last {req : ChatRequest} {b : Nat → RemoteOutcome}
    {ts input task : String} {wf : Bool} {fs : FileState} {a d : Nat} {m : String}
    (hb : b a = .apiError m) (ha : ¬ a < max_retries - 1) :
    runAttempts req b ts input task wf fs a d =
      ⟨.error (.remoteExhausted m), [req], [], fs⟩ := by
  rw [runAttempts, hb]
  simp [ha]

/-- On a valid call (non-empty trimmed input, ready client, known task)
`format_text` enters the retry loop at attempt `0`, delay `1`, with the
request built from the task's configuration. -/
theorem format_text_valid {input task ts : String} {task_config : TaskConfig}
    {b : Nat → RemoteOutcome} {fs : FileState} {wf : Bool}
    (hin : strip input ≠ "") (htask : lookupTask task = some task_config) :
    format_text true fs b wf ts input task =
      runAttempts
        { model := model_name
          messages := [⟨"system", task_config.instruction⟩, ⟨"user", input⟩]
          max_tokens := task_config.max_tokens
          temperature := task_config.temperature }
        b ts input task wf fs 0 1 := by
  unfold format_text
  rw [if_neg hin, if_neg (by simp : ¬(true = false)), htask]

/-! ## Encoding/decoding lemmas -/

theorem decodeEntry_encodeEntry (e : HistoryEntry) :
    decodeEntry (encodeEntry e) = some e := rfl

theorem decodeEntries_map_encode (l : List HistoryEntry) :
    decodeEntries (l.map encodeEntry) = some l := by
  induction l with
  | nil => rfl
  | cons e rest ih =>
      simp only [List.map_cons, decodeEntries, decodeEntry_encodeEntry, ih]

/-- The three stats fields read back from an encoded entry. -/
def entryStat (e : HistoryEntry) : String × Nat × Nat :=
  (e.task, e.input_length, e.output_length)

theorem statEntry_encodeEntry (e : HistoryEntry) :
    statEntry (encodeEntry e) = some (entryStat e) := rfl

theorem statEntries_map_encode (l : List HistoryEntry) :
    statEntries (l.map encodeEntry) = some (l.map entryStat) := by
  induction l with
  | nil => rfl
  | cons e rest ih =>
      simp only [List.map_cons, statEntries, statEntry_encodeEntry, ih]

theorem statEntries_length {xs : List Json} {es : List (String × Nat × Nat)}
    (h : statEntries xs = some es) : es.length = xs.length := by
  induction xs generalizing es with
  | nil => simp only [statEntries, Option.some.injEq] at h; subst h; rfl
  | cons j rest ih =>
      simp only [statEntries] at h
      cases hj : statEntry j with
      | none => rw [hj] at h; exact absurd h (by simp)
      | some e =>
          rw [hj] at h
          cases hr : statEntries rest with
          | none => rw [hr] at h; exact absurd h (by simp)
          | some es0 =>
              rw [hr] at h
              cases h
              simp [ih hr]

/-! ## Counting lemmas for the statistics -/

theorem bump_sum (c : List (String × Nat)) (t : String) :
    ((bump c t).map (fun p => p.2)).sum = (c.map (fun p => p.2)).sum + 1 := by
  induction c with
  | nil => simp [bump]
  | cons p rest ih =>
      obtain ⟨k, v⟩ := p
      by_cases hk : (k == t) = true
      · simp [bump, hk]
        omega
      · simp only [bump, hk]
        simp only [Bool.false_eq_true, if_false, List.map_cons, List.sum_cons, ih]
        omega

theorem foldl_bump_sum (entries : List (String × Nat × Nat))
    (init : List (String × Nat)) :
    (((entries.foldl (fun c e => bump c e.1) init)).map (fun p => p.2)).sum
      = (init.map (fun p => p.2)).sum + entries.length := by
  induction entries generalizing init with
  | nil => simp
  | cons e rest ih =>
      simp only [List.foldl_cons, List.length_cons, ih, bump_sum]
      omega

theorem sum_map_percent (c : List (String × Nat)) (n : ℚ) :
    (c.map (fun p => (p.2 : ℚ) / n * 100)).sum
      = (((c.map (fun p => p.2)).sum : Nat) : ℚ) / n * 100 := by
  induction c with
  | nil => simp
  | cons p rest ih =>
      simp only [List.map_cons, List.sum_cons, ih]
      push_cast
      ring

/-! ## The claims -/

/-- C1: for every non-empty input and known task, if the remote client
fails with an API error on the first two attempts and succeeds on the
third, `format_text` returns the third attempt's result, issues exactly
3 requests, and sleeps 1 time-unit after the first failure and 2 after
the second (the delay doubling after each failed attempt). -/
theorem C1_two_failures_then_success
    (input task ts t m0 m1 : String) (task_config : TaskConfig)
    (b : Nat → RemoteOutcome) (fs : FileState) (wf : Bool)
    (hin : strip input ≠ "") (htask : lookupTask task = some task_config)
    (h0 : b 0 = .apiError m0) (h1 : b 1 = .apiError m1) (h2 : b 2 = .success t) :
    (format_text true fs b wf ts input task).outcome = .ok t ∧
    (format_text true fs b wf ts input task).requests.length = 3 ∧
    (format_text true fs b wf ts input task).sleeps = [1, 2] := by
  rw [format_text_valid hin htask]
  simp [runAttempts, h0, h1, h2, max_retries]

theorem C1_witness :
    (strip "hello world" ≠ "") ∧
    lookupTask "formal" = some formalTask ∧
    failsTwiceThenOk 0 = .apiError "rate limited" ∧
    failsTwiceThenOk 1 = .apiError "rate limited" ∧
    failsTwiceThenOk 2 = .success "Formatted text." ∧
    ((format_text true .missing failsTwiceThenOk false "2024-01-01 00:00:00"
        "hello world" "formal").outcome = .ok "Formatted text." ∧
     (format_text true .missing failsTwiceThenOk false "2024-01-01 00:00:00"
        "hello world" "formal").requests.length = 3 ∧
     (format_text true .missing failsTwiceThenOk false "2024-01-01 00:00:00"
        "hello world" "formal").sleeps = [1, 2]) :=
  ⟨by decide, rfl, rfl, rfl, rfl,
   C1_two_failures_then_success "hello world" "formal" "2024-01-01 00:00:00"
     "Formatted text." "rate limited" "rate limited" formalTask
     failsTwiceThenOk .missing false (by decide) rfl rfl rfl rfl⟩

/-- C2: for every non-empty input and known task, if the remote client
fails with an API error on all 3 attempts, `format_text` fails with the
exhaustion error carrying the last attempt's error, issues exactly 3
requests, and the persisted history file is unchanged. -/
theorem C2_exhaustion_after_three_failures
    (input task ts m0 m1 m2 : String) (task_config : TaskConfig)
    (b : Nat → RemoteOutcome) (fs : FileState) (wf : Bool)
    (hin : strip input ≠ "") (htask : lookupTask task = some task_config)
    (h0 : b 0 = .apiError m0) (h1 : b 1 = .apiError m1) (h2 : b 2 = .apiError m2) :
    (format_text true fs b wf ts input task).outcome
      = .error (.remoteExhausted m2) ∧
    (format_text true fs b wf ts input task).requests.length = 3 ∧
    (format_text true fs b wf ts input task).fileState = fs := by
  rw [format_text_valid hin htask]
  simp [runAttempts, h0, h1, h2, max_retries]

theorem C2_witness :
    (strip "hello world" ≠ "") ∧
    lookupTask "bullet" = some bulletTask ∧
    alwaysAPIError 0 = .apiError "server error" ∧
    alwaysAPIError 1 = .apiError "server error" ∧
    alwaysAPIError 2 = .apiError "server error" ∧
    ((format_text true .missing alwaysAPIError false "2024-01-01 00:00:00"
        "hello world" "bullet").outcome = .error (.remoteExhausted "server error") ∧
     (format_text true .missing alwaysAPIError false "2024-01-01 00:00:00"
        "hello world" "bullet").requests.length = 3 ∧
     (format_text true .missing alwaysAPIError false "2024-01-01 00:00:00"
        "hello world" "bullet").fileState = .missing) :=
  ⟨by decide, rfl, rfl, rfl, rfl,
   C2_exhaustion_after_three_failures "hello world" "bullet" "2024-01-01 00:00:00"
     "server error" "server error" "server error" bulletTask
     alwaysAPIError .missing false (by decide) rfl rfl rfl rfl⟩

/-- C3: for every non-empty input and each of the three task
identifiers, a successful `format_text` call issues exactly one
request, whose system message is that task's instruction verbatim and
whose user message is the input verbatim, with `max_tokens` 500 for
formal and bullet and 300 for summarize, temperature 0.7 for all; the
returned string is the first completion's text. -/
theorem C3_single_request_shape
    (input ts t task : String) (b : Nat → RemoteOutcome) (fs : FileState) (wf : Bool)
    (hin : strip input ≠ "")
    (htask : task = "formal" ∨ task = "bullet" ∨ task = "summarize")
    (hb : b 0 = .success t) :
    ∃ task_config, lookupTask task = some task_config ∧
      (format_text true fs b wf ts input task).outcome = .ok t ∧
      (format_text true fs b wf ts input task).requests =
        [{ model := model_name
           messages := [⟨"system", task_config.instruction⟩, ⟨"user", input⟩]
           max_tokens := task_config.max_tokens
           temperature := task_config.temperature }] ∧
      task_config.temperature = 7/10 ∧
      (task = "formal" →
        task_config.instruction = "Please rewrite the following text in a professional, clear, and well-structured format, fixing any typos or grammatical errors." ∧
        task_config.max_tokens = 500) ∧
      (task = "bullet" →
        task_config.instruction = "Please convert the following text into organized bullet points, fixing any typos or grammatical errors." ∧
        task_config.max_tokens = 500) ∧
      (task = "summarize" →
        task_config.instruction = "Please provide a clear, organized summary of the following text, fixing any typos or grammatical errors." ∧
        task_config.max_tokens = 300) := by
  have key : ∀ task_config, lookupTask task = some task_config →
      (format_text true fs b wf ts input task).outcome = .ok t ∧
      (format_text true fs b wf ts input task).requests =
        [{ model := model_name
           messages := [⟨"system", task_config.instruction⟩, ⟨"user", input⟩]
           max_tokens := task_config.max_tokens
           temperature := task_config.temperature }] := by
    intro task_config hc
    rw [format_text_valid hin hc, runAttempts_success hb]
    exact ⟨rfl, rfl⟩
  rcases htask with h | h | h <;> subst h
  · exact ⟨formalTask, rfl, (key formalTask rfl).1,
      (key formalTask rfl).2, rfl,
      fun _ => ⟨rfl, rfl⟩, fun h => absurd h (by decide), fun h => absurd h (by decide)⟩
  · exact ⟨bulletTask, rfl, (key bulletTask rfl).1,
      (key bulletTask rfl).2, rfl,
      fun h => absurd h (by decide), fun _ => ⟨rfl, rfl⟩, fun h => absurd h (by decide)⟩
  · exact ⟨summarizeTask, rfl, (key summarizeTask rfl).1,
      (key summarizeTask rfl).2, rfl,
      fun h => absurd h (by decide), fun h => absurd h (by decide), fun _ => ⟨rfl, rfl⟩⟩

theorem C3_witness :
    ∃ task_config, lookupTask "summarize" = some task_config ∧
      (format_text true .missing alwaysOk false "2024-01-01 00:00:00"
        "hi there" "summarize").outcome = .ok "Formatted text." ∧
      (format_text true .missing alwaysOk false "2024-01-01 00:00:00"
        "hi there" "summarize").requests =
        [{ model := model_name
           messages := [⟨"system", task_config.instruction⟩, ⟨"user", "hi there"⟩]
           max_tokens := task_config.max_tokens
           temperature := task_config.temperature }] ∧
      task_config.temperature = 7/10 ∧
      ("summarize" = "formal" →
        task_config.instruction = "Please rewrite the following text in a professional, clear, and well-structured format, fixing any typos or grammatical errors." ∧
        task_config.max_tokens = 500) ∧
      ("summarize" = "bullet" →
        task_config.instruction = "Please convert the following text into organized bullet points, fixing any typos or grammatical errors." ∧
        task_config.max_tokens = 500) ∧
      ("summarize" = "summarize" →
        task_config.instruction = "Please provide a clear, organized summary of the following text, fixing any typos or grammatical errors." ∧
        task_config.max_tokens = 300) :=
  C3_single_request_shape "hi there" "2024-01-01 00:00:00" "Formatted text."
    "summarize" alwaysOk .missing false (by decide) (Or.inr (Or.inr rfl)) rfl

/-- C4: validation failures are immediate and make no remote call: an
input that is empty after trimming fails with the empty-input error
(for any client state and task), and a non-empty input with a task
outside the registry fails with the unknown-task error; in both cases
no request is issued and no sleep is performed. -/
theorem C4_validation_no_remote_call
    (input task ts : String) (cr : Bool) (b : Nat → RemoteOutcome)
    (fs : FileState) (wf : Bool) :
    (strip input = "" →
      format_text cr fs b wf ts input task = ⟨.error .emptyInput, [], [], fs⟩) ∧
    (strip input ≠ "" → lookupTask task = none →
      format_text true fs b wf ts input task = ⟨.error .unknownTask, [], [], fs⟩) := by
  constructor
  · intro h
    unfold format_text
    rw [if_pos h]
  · intro hin hnone
    unfold format_text
    rw [if_neg hin, if_neg (by simp : ¬(true = false)), hnone]

theorem C4_witness :
    ((strip "   " = "") ∧
      format_text true .missing alwaysOk false "ts" "   " "bullet"
        = ⟨.error .emptyInput, [], [], .missing⟩) ∧
    ((strip "text" ≠ "") ∧ lookupTask "nonexistent" = none ∧
      format_text true .missing alwaysOk false "ts" "text" "nonexistent"
        = ⟨.error .unknownTask, [], [], .missing⟩) :=
  ⟨⟨by decide,
    (C4_validation_no_remote_call "   " "bullet" "ts" true alwaysOk .missing false).1
      (by decide)⟩,
   ⟨by decide, rfl,
    (C4_validation_no_remote_call "text" "nonexistent" "ts" true alwaysOk .missing false).2
      (by decide) rfl⟩⟩

/-- C5: `save_to_history` on a readable prior history (or a missing
file, treated as the empty sequence) leaves the stored value equal to
the prior sequence with exactly one entry appended, whose task is the
given task and whose lengths are the character counts of the input and
output texts. -/
theorem C5_record_appends_one_entry
    (l : List HistoryEntry) (ts input_text task output_text : String) :
    save_to_history (.stored (encodeHistory l)) false ts input_text task output_text
      = .stored (encodeHistory
          (l ++ [⟨ts, task, input_text.length, output_text.length⟩])) ∧
    save_to_history .missing false ts input_text task output_text
      = .stored (encodeHistory [⟨ts, task, input_text.length, output_text.length⟩]) := by
  constructor
  · simp [save_to_history, encodeHistory]
  · simp [save_to_history, encodeHistory]

/-- C6: round-trip — persisting any sequence of history entries and
reloading it yields the identical ordered sequence, field for field. -/
theorem C6_history_round_trip (l : List HistoryEntry) :
    decodeHistory (encodeHistory l) = some l := by
  unfold decodeHistory encodeHistory
  exact decodeEntries_map_encode l

/-- C7: on a non-empty persisted history of N entries, the statistics
computation reports total N, per-task counts summing to N, per-task
percentages equal to count/N·100 and summing to 100 exactly over ℚ,
and average input/output lengths equal to the sums of the entries'
lengths divided by N. -/
theorem C7_statistics_totals_percentages_averages
    (l : List HistoryEntry) (hne : l ≠ []) :
    ∃ s, display_statistics (.stored (encodeHistory l)) = .stats s ∧
      s.total = l.length ∧
      (s.taskCounts.map (fun p => p.2)).sum = l.length ∧
      s.taskPercentages
        = s.taskCounts.map (fun p => (p.1, (p.2 : ℚ) / (l.length : ℚ) * 100)) ∧
      (s.taskPercentages.map (fun p => p.2)).sum = 100 ∧
      s.avgInput = ((l.map (fun e => e.input_length)).sum : ℚ) / (l.length : ℚ) ∧
      s.avgOutput = ((l.map (fun e => e.output_length)).sum : ℚ) / (l.length : ℚ) := by
  have hfalsy : jsonFalsy (.arr (l.map encodeEntry)) = false := by
    cases l with
    | nil => exact absurd rfl hne
    | cons e rest => rfl
  have hdisp : display_statistics (.stored (encodeHistory l))
      = .stats (computeStats (l.map entryStat)) := by
    simp only [display_statistics, encodeHistory, hfalsy, Bool.false_eq_true,
      if_false, statEntries_map_encode]
  have hlen : (l.map entryStat).length = l.length := List.length_map _ _
  have hcounts : (((l.map entryStat).foldl (fun c e => bump c e.1) []).map
      (fun p => p.2)).sum = l.length := by
    rw [foldl_bump_sum]
    simp
  have hlq : (l.length : ℚ) ≠ 0 :=
    Nat.cast_ne_zero.mpr (fun h => hne (List.length_eq_zero.mp h))
  refine ⟨computeStats (l.map entryStat), hdisp, ?_, ?_, ?_, ?_, ?_, ?_⟩
  · simp [computeStats, hlen]
  · simpa [computeStats] using hcounts
  · simp [computeStats, hlen]
  · simp only [computeStats, hlen, List.map_map, Function.comp_def]
    rw [sum_map_percent, hcounts, div_self hlq, one_mul]
  · simp [computeStats, hlen, List.map_map, Function.comp_def, entryStat]
  · simp [computeStats, hlen, List.map_map, Function.comp_def, entryStat]

/-- A concrete two-entry history used to witness C7. -/
def sampleHistory : List HistoryEntry :=
  [⟨"2024-01-01 10:00:00", "formal", 10, 20⟩,
   ⟨"2024-01-02 11:00:00", "bullet", 30, 40⟩]

theorem C7_witness :
    ∃ s, display_statistics (.stored (encodeHistory sampleHistory)) = .stats s ∧
      s.total = sampleHistory.length ∧
      (s.taskCounts.map (fun p => p.2)).sum = sampleHistory.length ∧
      s.taskPercentages
        = s.taskCounts.map
            (fun p => (p.1, (p.2 : ℚ) / (sampleHistory.length : ℚ) * 100)) ∧
      (s.taskPercentages.map (fun p => p.2)).sum = 100 ∧
      s.avgInput = ((sampleHistory.map (fun e => e.input_length)).sum : ℚ)
        / (sampleHistory.length : ℚ) ∧
      s.avgOutput = ((sampleHistory.map (fun e => e.output_length)).sum : ℚ)
        / (sampleHistory.length : ℚ) :=
  C7_statistics_totals_percentages_averages sampleHistory
    (List.cons_ne_nil _ _)

/-- C8: a missing history file or an empty persisted sequence yields
the defined "empty" result, and whenever the statistics computation
does produce numbers, the total it divides by is positive. -/
theorem C8_empty_history_safe :
    display_statistics .missing = .empty ∧
    display_statistics (.stored (.arr [])) = .empty ∧
    (∀ fs s, display_statistics fs = .stats s → 0 < s.total) := by
  refine ⟨rfl, rfl, ?_⟩
  intro fs s h
  cases fs with
  | missing => simp [display_statistics] at h
  | corrupt => simp [display_statistics] at h
  | stored j =>
    cases j with
    | arr xs =>
      simp only [display_statistics] at h
      by_cases hf : jsonFalsy (Json.arr xs) = true
      · rw [if_pos hf] at h
        simp at h
      · rw [if_neg hf] at h
        cases hs : statEntries xs with
        | none => rw [hs] at h; simp at h
        | some es =>
          rw [hs] at h
          simp only [StatsResult.stats.injEq] at h
          subst h
          have hxs : xs ≠ [] := by
            intro hx
            subst hx
            exact hf rfl
          have hlen := statEntries_length hs
          have hpos : 0 < xs.length := List.length_pos.mpr hxs
          simp only [computeStats]
          omega
    | str a =>
      simp only [display_statistics] at h
      split at h <;> simp at h
    | num n =>
      simp only [display_statistics] at h
      split at h <;> simp at h
    | obj f =>
      simp only [display_statistics] at h
      split at h <;> simp at h

theorem C8_witness :
    display_statistics (.stored (encodeHistory sampleHistory))
      = .stats (computeStats (sampleHistory.map entryStat)) ∧
    0 < (computeStats (sampleHistory.map entryStat)).total :=
  ⟨rfl, C8_empty_history_safe.2.2 (.stored (encodeHistory sampleHistory))
    (computeStats (sampleHistory.map entryStat)) rfl⟩

/-- C9 counterexample: a failed write does NOT leave the persisted file
unchanged.  From a readable one-entry history, `save_to_history` with a
failing write leaves the truncated (unparseable) file, because
`open(self.history_file, 'w')` truncates before `json.dump` runs — so
the "no partial write of the new entry" conjunct of the claim is false
at this concrete input. -/
theorem C9_counterexample :
    save_to_history (.stored (encodeHistory sampleHistory)) true
      "2024-01-03 09:00:00" "hello" "formal" "Formatted text."
      ≠ .stored (encodeHistory sampleHistory) := by
  simp [save_to_history, encodeHistory, sampleHistory]

/-- C9 (amended): every internal I/O failure during `save_to_history`
is caught and never propagates, and `format_text` still returns the
formatted text.  A failure raised before the write — a corrupt or
unreadable history file — leaves the persisted file unchanged; but a
failed write leaves a truncated/partial (unparseable) file rather than
the prior contents, both from a missing file and from a readable
history, because the file is truncated on open before the JSON dump. -/
theorem C9_failures_swallowed_write_truncates
    (l : List HistoryEntry) (input task output ts t : String)
    (task_config : TaskConfig) (b : Nat → RemoteOutcome)
    (fs : FileState) (wf : Bool)
    (hin : strip input ≠ "") (htask : lookupTask task = some task_config)
    (hb : b 0 = .success t) :
    (format_text true fs b wf ts input task).outcome = .ok t ∧
    save_to_history .corrupt wf ts input task output = .corrupt ∧
    (fs = .corrupt → (format_text true fs b wf ts input task).fileState = fs) ∧
    save_to_history .missing true ts input task output = .corrupt ∧
    save_to_history (.stored (encodeHistory l)) true ts input task output
      = .corrupt := by
  refine ⟨?_, rfl, ?_, rfl, ?_⟩
  · rw [format_text_valid hin htask, runAttempts_success hb]
  · intro hc
    subst hc
    rw [format_text_valid hin htask, runAttempts_success hb]
    rfl
  · simp [save_to_history, encodeHistory]

theorem C9_witness :
    ((format_text true .corrupt alwaysOk true "ts" "hello" "formal").outcome
      = .ok "Formatted text." ∧
     save_to_history .corrupt true "ts" "hello" "formal" "out" = .corrupt ∧
     (format_text true .corrupt alwaysOk true "ts" "hello" "formal").fileState
      = .corrupt ∧
     save_to_history .missing true "ts" "hello" "formal" "out" = .corrupt ∧
     save_to_history (.stored (encodeHistory sampleHistory)) true
       "ts" "hello" "formal" "out" = .corrupt) :=
  have h := C9_failures_swallowed_write_truncates sampleHistory "hello" "formal"
    "out" "ts" "Formatted text." formalTask alwaysOk .corrupt true
    (by decide) rfl rfl
  ⟨h.1, h.2.1, h.2.2.1 rfl, h.2.2.2.1, h.2.2.2.2⟩

/-- C10: validation precedence — the empty-input check runs before the
client-readiness check, which runs before the task lookup; hence a
non-empty input with an unconfigured client and an unknown task fails
with the client-not-ready error, not the unknown-task error, with no
request issued. -/
theorem C10_client_check_before_task_lookup
    (input task ts : String) (b : Nat → RemoteOutcome) (fs : FileState) (wf : Bool) :
    (strip input = "" → ∀ cr,
      format_text cr fs b wf ts input task = ⟨.error .emptyInput, [], [], fs⟩) ∧
    (strip input ≠ "" → lookupTask task = none →
      format_text false fs b wf ts input task
        = ⟨.error .clientNotReady, [], [], fs⟩) := by
  constructor
  · intro h cr
    unfold format_text
    rw [if_pos h]
  · intro hin _
    unfold format_text
    rw [if_neg hin, if_pos rfl]

theorem C10_witness :
    format_text false .missing alwaysOk false "ts" "text" "nonexistent"
      = ⟨.error .clientNotReady, [], [], .missing⟩ :=
  (C10_client_check_before_task_lookup "text" "nonexistent" "ts" alwaysOk
    .missing false).2 (by decide) rfl

end Reword
